import Mathlib

/-!
Shallow embedding of `do_scan.py` from openSUSE/obs-service-cargo_audit.

The script drives an audit over a set of OBS packages: it enumerates the
packages that depend on `rust` (or takes an explicit allow-list), checks
each one out, inspects its `_service` descriptor, optionally re-runs
services, scans each package with `cargo_audit`, and finally partitions
the packages into remediation sets with Python set algebra.

All external subprocess calls (osc, nsjail, the dynamically loaded
`cargo_audit` module) are modelled as oracles carried by an `Env` record;
the control flow, filtering, flag bookkeeping and set algebra are
translated statement by statement from the source.
-/

/-- Characters stripped by Python's `str.strip()` (the ASCII whitespace
characters; the source only ever strips plain spaces and newlines). -/
def isPySpace (c : Char) : Bool :=
  c = ' ' || c = '\t' || c = '\n' || c = '\r' || c = Char.ofNat 11 || c = Char.ofNat 12

/-- Python `str.split(sep)` for a one-character separator, on the character
list of the string: keeps empty fields, so "a\n".split gives ["a", ""]. -/
def splitOnChar (c : Char) : List Char → List (List Char)
  | [] => [[]]
  | ch :: rest =>
    let r := splitOnChar c rest
    if ch = c then [] :: r
    else
      match r with
      | [] => [[ch]]
      | g :: gs => (ch :: g) :: gs

/-- Python `x.split(sep)` lifted back to strings. -/
def pysplit (c : Char) (s : String) : List String :=
  (splitOnChar c s.data).map String.mk

/-- Python `x.strip()`. -/
def pystrip (s : String) : String :=
  String.mk (((s.data.dropWhile isPySpace).reverse.dropWhile isPySpace).reverse)

/-- The module-level `EXCLUDE` set of `do_scan.py` (a Python `set` used only
for membership tests, so a list models it). -/
def EXCLUDE : List String :=
  [ "MozillaFirefox"
  , "MozillaThunderbird"
  , "rust"
  , "obs-service-cargo_audit"
  , "cargo-audit-advisory-db"
  , "rust-packaging"
  , "seamonkey"
  , "meson:test" ]

/-- The pure filtering pipeline of `list_whatdepends` (lines 46-64 of
`do_scan.py`), applied to the raw `osc whatdependson` output, with the
exclusion set as a parameter (the source closes over the global `EXCLUDE`):
drop the first line (the queried package itself), strip whitespace, drop
empty lines, drop multi-build `name:flavor` entries, drop excluded names. -/
def filter_whatdepends (exclude : List String) (raw : String) : List String :=
  let raw_depends := pysplit '\n' raw
  let raw_depends := raw_depends.drop 1
  let raw_depends := raw_depends.map pystrip
  let raw_depends := raw_depends.filter (fun x => x ≠ "")
  let raw_depends := raw_depends.filter (fun x => (pysplit ':' x).length = 1)
  let raw_depends := raw_depends.filter (fun x => x ∉ exclude)
  raw_depends

/-- Function `list_whatdepends` of `do_scan.py`: the subprocess output is the
argument, the filtering uses the global `EXCLUDE`. -/
def list_whatdepends (raw : String) : List String :=
  filter_whatdepends EXCLUDE raw

/-- An advisory record: `advisory["id"]` in a scan report. -/
structure Advisory where
  id : String
deriving DecidableEq

/-- One entry of `report["vulnerabilities"]["list"]`. -/
structure VulnEntry where
  advisory : Advisory
deriving DecidableEq

/-- The `vulnerabilities` object of a report, with its `list` field. -/
structure Vulnerabilities where
  list : List VulnEntry
deriving DecidableEq

/-- One report of the sequence returned by `do_cargo_audit`. -/
structure Report where
  vulnerabilities : Vulnerabilities
deriving DecidableEq

/-- Function `do_unpack_scan` of `do_scan.py` (lines 147-175). The `scan` argument is
the outcome of calling the dynamically loaded `do_cargo_audit`: `Except.error`
models an exception escaping that call, which the source catches and turns
into a `False` return. The result pairs the returned boolean (`true` =
passed / not affected, `false` = maybe vulnerable or scan failure) with the
line the source prints for the outcome (its only other observable). -/
def do_unpack_scan (scan : Except String (List Report)) (rustsec_id : Option String) :
    Bool × String :=
  match scan with
  | Except.error e => (false, "🚨 -- cargo_audit was unable to be run - " ++ e)
  | Except.ok scanR =>
    match rustsec_id with
    | some rid =>
      let affected := scanR.any (fun report =>
        report.vulnerabilities.list.any (fun adv => adv.advisory.id == rid))
      if !affected then (true, "✅ -- NOT affected by " ++ rid)
      else (false, "🚨 -- affected by " ++ rid)
    | none =>
      if scanR.length = 0 then (true, "✅ -- cargo_audit passed")
      else (false, "🚨 -- cargo_audit failed")

/-- A `<param name="...">text</param>` child of a service element; `text` is
`Option String` because ElementTree's `.text` is `None` for an empty element. -/
structure Param where
  name : String
  text : Option String
deriving DecidableEq

/-- A `<service name="...">` child of the `_service` document root. -/
structure SvcTag where
  name : String
  params : List Param
deriving DecidableEq

/-- A parsed `_service` document, modelled by its `<service>` children (the
only elements `does_have_cargo_audit` reads or removes; everything else is
preserved verbatim by the rewrite). -/
structure ServiceDoc where
  services : List SvcTag
deriving DecidableEq

/-- The flag-gathering loop of `does_have_cargo_audit` (lines 107-123): one
pass over the `<service>` tags accumulating `has_audit`, `has_vendor`,
`has_vendor_update` and `lockfile` exactly as the Python loop does. -/
def scanServiceTags : List SvcTag → Bool → Bool → Bool → Option String →
    Bool × Bool × Bool × Option String
  | [], ha, hv, hvu, lf => (ha, hv, hvu, lf)
  | tag :: rest, ha, hv, hvu, lf =>
    if tag.name = "cargo_audit" then
      let lf := tag.params.foldl
        (fun acc attr => if attr.name = "lockfile" then attr.text else acc) lf
      scanServiceTags rest true hv hvu lf
    else if tag.name = "cargo_vendor" then
      let hvu := tag.params.foldl
        (fun acc attr =>
          if attr.name = "update" ∧ attr.text = some "true" then true else acc) hvu
      scanServiceTags rest ha true hvu lf
    else
      scanServiceTags rest ha hv hvu lf

/-- Function `does_have_cargo_audit` of `do_scan.py` (lines 98-126). The filesystem is
modelled by the content of the package's `_service` file (`none` when the
file does not exist). Returns the 5-tuple the source returns together with
the file's content after the call: when the file exists it is rewritten with
the `cargo_audit` and `cargo_vendor` service tags removed, otherwise nothing
is written. -/
def does_have_cargo_audit (file : Option ServiceDoc) :
    (Bool × Bool × Bool × Bool × Option String) × Option ServiceDoc :=
  match file with
  | some doc =>
    let r := scanServiceTags doc.services false false false none
    ( (true, r.1, r.2.1, r.2.2.1, r.2.2.2)
    , some ⟨doc.services.filter
        (fun t => t.name ≠ "cargo_audit" ∧ t.name ≠ "cargo_vendor")⟩ )
  | none => ((false, false, false, false, none), none)

/-- The end-of-run set algebra of `__main__` (lines 254-259):
`slow_update = maybe_vuln & need_vendor_services`,
`fast_update = maybe_vuln - slow_update`,
`need_vendor_services -= maybe_vuln`, `maybe_vuln -= fast_update`.
Returns (fast_update, slow_update, need_vendor_services, maybe_vuln) in
their final states. -/
def classify (maybe_vuln need_vendor_services : Finset String) :
    Finset String × Finset String × Finset String × Finset String :=
  let slow_update := maybe_vuln ∩ need_vendor_services
  let fast_update := maybe_vuln \ slow_update
  let need_vendor_services2 := need_vendor_services \ maybe_vuln
  let maybe_vuln2 := maybe_vuln \ fast_update
  (fast_update, slow_update, need_vendor_services2, maybe_vuln2)

/-- The command-line arguments of `__main__` that influence the modelled
behaviour (`obs_api` and `obs_repo` only name the remote and the checkout
directory, which the oracles absorb). -/
structure Args where
  should_setup : Bool
  rustsec_id : Option String
  package : Option (List String)

/-- The external world of one run: the raw `osc whatdependson` output, the
initial `_service` file of each package, and one oracle per subprocess
boundary. `develproject` and `checkout` return `Except` because
`get_develproject` and `checkout_or_update` re-raise `CalledProcessError`
after printing it; `services` returns the boolean `do_services` returns;
`cargo_audit` is the outcome of the loaded `do_cargo_audit` function on the
package's checkout and lockfile path. -/
structure Env where
  whatdepends_raw : String
  fs0 : String → Option ServiceDoc
  develproject : String → Except String String
  checkout : String → Except String Unit
  services : String → Bool
  cargo_audit : String → Option String → Except String (List Report)

/-- Function `checkout_or_update` of `do_scan.py` (lines 76-95): every branch of the
body is a subprocess call absorbed by the oracle; the `except` clause prints
the failure and re-raises it, so errors propagate to the caller. -/
def checkout_or_update (env : Env) (pkgname : String) : Except String Unit :=
  match env.checkout pkgname with
  | Except.ok u => Except.ok u
  | Except.error e => Except.error e

/-- Lookup in an association list built with the newest binding in front,
returning a default when the key is absent (Python `dict.get(k, d)`; for
`devel_projects[k]` the key is always present when used). -/
def lookupA {β : Type} (l : List (String × β)) (k : String) (d : β) : β :=
  match l with
  | [] => d
  | (k2, v) :: rest => if k = k2 then v else lookupA rest k d

/-- The `devel_projects` resolution loop (lines 197-199): calls
`get_develproject` for every package in order; the first failure re-raises
and aborts the run. The resulting dict is the association list. -/
def resolve_devel (env : Env) : List String → Except String (List (String × String))
  | [] => Except.ok []
  | p :: ps =>
    match env.develproject p with
    | Except.error e => Except.error e
    | Except.ok d =>
      match resolve_devel env ps with
      | Except.error e => Except.error e
      | Except.ok rest => Except.ok ((p, d) :: rest)

/-- The mutable state of the first per-package loop of `__main__`
(lines 200-232). -/
structure MainState where
  fs : String → Option ServiceDoc
  lockfiles : List (String × Option String)
  auditable_depends : List String
  unpack_depends : List (String × Bool)
  need_vendor_services : Finset String

/-- The first per-package loop of `__main__` (lines 208-232): check out
(aborting the run if that raises), inspect and rewrite the `_service` file,
record the lockfile, and sort the package into `auditable_depends` or
`unpack_depends`, noting a missing `cargo_vendor` service. -/
def main_loop (env : Env) (dp : String → String) :
    List String → MainState → Except String MainState
  | [], st => Except.ok st
  | p :: ps, st =>
    match checkout_or_update env p with
    | Except.error e => Except.error e
    | Except.ok _ =>
      let r := does_have_cargo_audit (st.fs p)
      let has_services := r.1.1
      let has_audit := r.1.2.1
      let has_vendor := r.1.2.2.1
      let lockfile := r.1.2.2.2.2
      let st2 : MainState :=
        { fs := fun q => if q = p then r.2 else st.fs q
        , lockfiles := (p, lockfile) :: st.lockfiles
        , auditable_depends :=
            if has_audit then st.auditable_depends ++ [p] else st.auditable_depends
        , unpack_depends :=
            if has_audit then st.unpack_depends else st.unpack_depends ++ [(p, has_services)]
        , need_vendor_services :=
            if has_vendor then st.need_vendor_services
            else insert (dp p ++ "/" ++ p) st.need_vendor_services }
      main_loop env dp ps st2

/-- The service phase of `__main__` (lines 234-244): when `should_setup`,
run `do_services` for every auditable package, then for every unpacked
package that has some `_service` file; results are only printed, so the
model records them as a list of (package, success) pairs. -/
def run_services (args : Args) (env : Env)
    (auditable : List String) (unpack : List (String × Bool)) : List (String × Bool) :=
  if args.should_setup then
    auditable.map (fun p => (p, env.services p)) ++
      (unpack.filter (fun x => x.2)).map (fun x => (x.1, env.services x.1))
  else []

/-- The scan loop of `__main__` (lines 247-252): scan every package with its
recorded lockfile; a `false` result adds `devel/pkg` to `maybe_vuln`.
Returns the final `maybe_vuln` and the per-package (package, result,
printed line) list. -/
def scan_loop (env : Env) (args : Args) (dp : String → String)
    (lockfiles : List (String × Option String)) :
    List String → Finset String → Finset String × List (String × Bool × String)
  | [], mv => (mv, [])
  | p :: ps, mv =>
    let lockfile := lookupA lockfiles p none
    let r := do_unpack_scan (env.cargo_audit p lockfile) args.rustsec_id
    let mv2 := if r.1 then mv else insert (dp p ++ "/" ++ p) mv
    let rest := scan_loop env args dp lockfiles ps mv2
    (rest.1, (p, r.1, r.2) :: rest.2)

/-- Everything one run of `__main__` leaves behind that the final report is
read from: the per-package scan outcomes and printed lines, the service
results, and the four remediation sets in their final states. -/
structure RunResult where
  scan_results : List (String × Bool × String)
  service_results : List (String × Bool)
  fast_update : Finset String
  slow_update : Finset String
  need_vendor_services : Finset String
  maybe_vuln : Finset String
deriving DecidableEq

/-- The working set of a run (lines 192-195): the `--package` allow-list
verbatim when given, otherwise the filtered `osc whatdependson` output. -/
def run_depends (args : Args) (env : Env) : List String :=
  match args.package with
  | some ps => ps
  | none => list_whatdepends env.whatdepends_raw

/-- The tail of `__main__` after the first per-package loop: services, scans,
and the final set algebra, assembled into a `RunResult`. -/
def finish (args : Args) (env : Env) (dp : String → String)
    (depends : List String) (st : MainState) : RunResult :=
  let service_results := run_services args env st.auditable_depends st.unpack_depends
  let pr := scan_loop env args dp st.lockfiles depends ∅
  let c := classify pr.1 st.need_vendor_services
  { scan_results := pr.2
  , service_results := service_results
  , fast_update := c.1
  , slow_update := c.2.1
  , need_vendor_services := c.2.2.1
  , maybe_vuln := c.2.2.2 }

/-- One run of `__main__` (lines 177-259): resolve devel projects, run the
per-package checkout/inspection loop, run services, scan, classify. An
uncaught exception anywhere (devel-project resolution, checkout, a malformed
`_service` parse — the latter not modelled since `fs0` holds parsed
documents) aborts the whole run with `Except.error`. -/
def run (args : Args) (env : Env) : Except String RunResult :=
  let depends := run_depends args env
  match resolve_devel env depends with
  | Except.error e => Except.error e
  | Except.ok devel =>
    let dp := fun p => lookupA devel p ""
    match main_loop env dp depends
        { fs := env.fs0, lockfiles := [], auditable_depends := []
        , unpack_depends := [], need_vendor_services := ∅ } with
    | Except.error e => Except.error e
    | Except.ok st => Except.ok (finish args env dp depends st)

deriving instance DecidableEq for Except

/-- Whether an `Except` computation succeeded (a boolean so that concrete
environments can be checked by evaluation). -/
def okB {α : Type} : Except String α → Bool
  | Except.ok _ => true
  | Except.error _ => false

/-- An all-green environment: empty enumeration output, no `_service` files,
every devel project resolves to "devel", every checkout succeeds, services
pass, and every scan returns the empty report sequence. Concrete inputs of
the theorems below override single fields of it. -/
def baseEnv : Env :=
  { whatdepends_raw := ""
  , fs0 := fun _ => none
  , develproject := fun _ => Except.ok "devel"
  , checkout := fun _ => Except.ok ()
  , services := fun _ => true
  , cargo_audit := fun _ _ => Except.ok [] }

/-- A report carrying exactly the advisory RUSTSEC-2023-0001. -/
def report0001 : Report :=
  { vulnerabilities := { list := [ { advisory := { id := "RUSTSEC-2023-0001" } } ] } }

/-- A report whose inner advisory list is empty. -/
def emptyReport : Report := { vulnerabilities := { list := [] } }

/-- Concrete arguments for the C2 witness run: one package, no setup,
general scan mode. -/
def c2args : Args := { should_setup := false, rustsec_id := none, package := some ["alpha"] }

/-- Environment for the C2 witness run: the scan raises, so the package
lands in `maybe_vuln`; it also has no `_service` file, so it first lands in
`need_vendor_services`. -/
def c2env : Env := { baseEnv with cargo_audit := fun _ _ => Except.error "io error" }

/-- The result of `run c2args c2env`, written out. -/
def c2result : RunResult :=
  { scan_results := [("alpha", false, "🚨 -- cargo_audit was unable to be run - io error")]
  , service_results := []
  , fast_update := ∅
  , slow_update := {"devel/alpha"}
  , need_vendor_services := ∅
  , maybe_vuln := {"devel/alpha"} }

/-- Concrete arguments for the C3 runs: two packages. -/
def c3args : Args := { should_setup := true, rustsec_id := none, package := some ["alpha", "beta"] }

/-- Environment whose checkout of "alpha" raises. -/
def c3badenv : Env :=
  { baseEnv with checkout :=
      fun p => if p = "alpha" then Except.error "checkout failed" else Except.ok () }

/-- Environment where all checkouts succeed but every service run fails and
the scan of "beta" raises: the per-package failures that are recorded
rather than raised. "alpha" has a `_service` file with an unrelated
service, so its (failing) service run actually happens. -/
def c3wenv : Env :=
  { baseEnv with
      fs0 := fun p =>
        if p = "alpha" then some { services := [ { name := "set_version", params := [] } ] }
        else none
    , services := fun _ => false
    , cargo_audit := fun p _ =>
        if p = "beta" then Except.error "scan exploded" else Except.ok [] }

/-- Concrete arguments for the C4 runs: targeted scan mode for
RUSTSEC-2023-0001 over one package. -/
def c4args : Args :=
  { should_setup := false, rustsec_id := some "RUSTSEC-2023-0001", package := some ["alpha"] }

/-- Environment whose scan of the package raises an error. -/
def c4errEnv : Env := { baseEnv with cargo_audit := fun _ _ => Except.error "boom" }

/-- Environment whose scan reports a match for the queried advisory. -/
def c4affEnv : Env := { baseEnv with cargo_audit := fun _ _ => Except.ok [report0001] }

/-- Concrete arguments for the C8 run: two packages, scans raising. -/
def c8args : Args := { should_setup := true, rustsec_id := none, package := some ["alpha", "beta"] }

/-- Environment where every scan invocation raises. -/
def c8env : Env := { baseEnv with cargo_audit := fun _ _ => Except.error "cargo audit missing" }

/-- Concrete arguments for the C10 run: an allow-list holding a name of
`EXCLUDE` and a colon name. -/
def c10args : Args :=
  { should_setup := false, rustsec_id := none, package := some ["rust", "meson:test"] }

/-! ### Helper lemmas -/

/-- The sets `finish` builds satisfy: the final vendor-nudge set is disjoint
from the union of the two vulnerable sets and from the final `maybe_vuln`. -/
lemma finish_need_vendor_disjoint (args : Args) (env : Env) (dp : String → String)
    (depends : List String) (st : MainState) :
    (finish args env dp depends st).need_vendor_services ∩
        ((finish args env dp depends st).fast_update ∪ (finish args env dp depends st).slow_update)
      = ∅ ∧
    (finish args env dp depends st).need_vendor_services ∩
        (finish args env dp depends st).maybe_vuln = ∅ := by
  constructor <;>
    · simp only [finish, classify]
      ext x
      simp only [Finset.mem_inter, Finset.mem_union, Finset.mem_sdiff,
        Finset.not_mem_empty, iff_false]
      tauto

/-- A successful run's result is `finish` applied to the state the loops
produced. -/
lemma run_ok_finish {args : Args} {env : Env} {r : RunResult}
    (h : run args env = Except.ok r) :
    ∃ devel st, r = finish args env (fun p => lookupA devel p "") (run_depends args env) st := by
  unfold run at h
  dsimp only at h
  rcases hd : resolve_devel env (run_depends args env) with e | devel
  · rw [hd] at h; dsimp only at h; cases h
  · rw [hd] at h
    dsimp only at h
    rcases hm : main_loop env (fun p => lookupA devel p "") (run_depends args env)
        { fs := env.fs0, lockfiles := [], auditable_depends := []
        , unpack_depends := [], need_vendor_services := ∅ } with e | st
    · rw [hm] at h; dsimp only at h; cases h
    · rw [hm] at h
      dsimp only at h
      cases h
      exact ⟨devel, st, rfl⟩

/-- Devel-project resolution succeeds when every package's lookup does. -/
lemma resolve_devel_ok (env : Env) (l : List String)
    (h : ∀ p ∈ l, okB (env.develproject p) = true) :
    ∃ d, resolve_devel env l = Except.ok d := by
  induction l with
  | nil => exact ⟨[], rfl⟩
  | cons p ps ih =>
    have hp := h p (List.mem_cons_self p ps)
    rcases hd : env.develproject p with e | v
    · rw [hd] at hp; simp [okB] at hp
    · obtain ⟨d, hdd⟩ := ih (fun q hq => h q (List.mem_cons_of_mem p hq))
      exact ⟨(p, v) :: d, by simp only [resolve_devel, hd, hdd]⟩

/-- The checkout/inspection loop succeeds when every checkout does, from any
starting state. -/
lemma main_loop_ok (env : Env) (dp : String → String) (l : List String)
    (h : ∀ p ∈ l, okB (env.checkout p) = true) :
    ∀ st, ∃ st2, main_loop env dp l st = Except.ok st2 := by
  induction l with
  | nil => exact fun st => ⟨st, rfl⟩
  | cons p ps ih =>
    intro st
    have hp := h p (List.mem_cons_self p ps)
    rcases hc : env.checkout p with e | u
    · rw [hc] at hp; simp [okB] at hp
    · have ih2 := ih (fun q hq => h q (List.mem_cons_of_mem p hq))
      simp only [main_loop, checkout_or_update, hc]
      exact ih2 _

/-- The scan loop records exactly one outcome per input package, in order. -/
lemma scan_loop_names (env : Env) (args : Args) (dp : String → String)
    (lockfiles : List (String × Option String)) :
    ∀ (l : List String) (mv : Finset String),
      (scan_loop env args dp lockfiles l mv).2.map (fun x => x.1) = l := by
  intro l
  induction l with
  | nil => intro mv; rfl
  | cons p ps ih =>
    intro mv
    simp only [scan_loop, List.map_cons, ih]

/-- Two appends differ when the left parts differ within their first `n`
characters. -/
lemma append_ne_of_take_ne (p q e f : String) (n : Nat)
    (hp : n ≤ p.data.length) (hq : n ≤ q.data.length)
    (hne : p.data.take n ≠ q.data.take n) : p ++ e ≠ q ++ f := by
  intro h
  apply hne
  have h3 : p.data ++ e.data = q.data ++ f.data := by
    have h2 := congrArg String.data h
    rwa [String.data_append, String.data_append] at h2
  calc p.data.take n = (p.data ++ e.data).take n :=
        (List.take_append_of_le_length hp).symm
    _ = (q.data ++ f.data).take n := by rw [h3]
    _ = q.data.take n := List.take_append_of_le_length hq

/-- In targeted mode the line printed for a scan error differs from the line
printed for any successfully obtained report, whatever the error text. -/
lemma scan_error_msg_ne (e rid : String) (reports : List Report) :
    (do_unpack_scan (Except.error e) (some rid)).2 ≠
      (do_unpack_scan (Except.ok reports) (some rid)).2 := by
  simp only [do_unpack_scan]
  rcases haff : reports.any (fun report =>
      report.vulnerabilities.list.any (fun adv => adv.advisory.id == rid)) with _ | _
  · simp only [haff, Bool.not_false, if_true]
    exact append_ne_of_take_ne _ _ _ _ 6 (by decide) (by decide) (by decide)
  · simp only [haff, Bool.not_true, if_false]
    exact append_ne_of_take_ne _ _ _ _ 6 (by decide) (by decide) (by decide)

/-- The boolean a targeted scan returns is the negated advisory search. -/
lemma targeted_bool (reports : List Report) (rid : String) :
    (do_unpack_scan (Except.ok reports) (some rid)).1 =
      !(reports.any (fun report =>
        report.vulnerabilities.list.any (fun adv => adv.advisory.id == rid))) := by
  simp only [do_unpack_scan]
  rcases haff : reports.any (fun report =>
      report.vulnerabilities.list.any (fun adv => adv.advisory.id == rid)) with _ | _ <;>
    simp [haff]

/-- A targeted scan reports affected exactly when the queried id occurs in
some advisory record of the report sequence. -/
lemma targeted_result (reports : List Report) (rid : String) :
    (do_unpack_scan (Except.ok reports) (some rid)).1 = false ↔
      ∃ report ∈ reports, ∃ adv ∈ report.vulnerabilities.list, adv.advisory.id = rid := by
  rw [targeted_bool]
  simp [List.any_eq_true]

/-- A general scan passes exactly when the report sequence is empty. -/
lemma general_result (reports : List Report) :
    (do_unpack_scan (Except.ok reports) none).1 = true ↔ reports = [] := by
  simp only [do_unpack_scan]
  rcases reports with _ | ⟨r, rs⟩ <;> simp

/-! ### The claims -/

/-- C1: for every pair of input sets, the classification step (lines
254-259) computes `fast_update` and `slow_update` disjoint, with union the
`maybe_vuln` set it was given (`slow_update = maybe_vuln ∩
need_vendor_services`, `fast_update = maybe_vuln \ slow_update`). -/
theorem c1_fast_slow_partition (maybe_vuln need_vendor_services : Finset String) :
    (classify maybe_vuln need_vendor_services).1 ∩
        (classify maybe_vuln need_vendor_services).2.1 = ∅ ∧
    (classify maybe_vuln need_vendor_services).1 ∪
        (classify maybe_vuln need_vendor_services).2.1 = maybe_vuln := by
  constructor <;>
    · simp only [classify]
      ext x
      simp only [Finset.mem_inter, Finset.mem_union, Finset.mem_sdiff,
        Finset.not_mem_empty, iff_false]
      tauto

/-- C2: in every completed run, the final `need_vendor_services` set shares
no package with the vulnerable sets: neither with `fast_update ∪
slow_update` (the packages reported vulnerable) nor with the final
`maybe_vuln`. -/
theorem c2_vuln_excluded_from_vendor_nudge (args : Args) (env : Env) (r : RunResult)
    (h : run args env = Except.ok r) :
    r.need_vendor_services ∩ (r.fast_update ∪ r.slow_update) = ∅ ∧
    r.need_vendor_services ∩ r.maybe_vuln = ∅ := by
  obtain ⟨devel, st, rfl⟩ := run_ok_finish h
  exact finish_need_vendor_disjoint ..

/-- Witness for C2: the theorem applied to a concrete completed run (one
package, scan error, no vendor service). -/
theorem c2_vuln_excluded_from_vendor_nudge_witness :
    c2result.need_vendor_services ∩ (c2result.fast_update ∪ c2result.slow_update) = ∅ ∧
    c2result.need_vendor_services ∩ c2result.maybe_vuln = ∅ :=
  c2_vuln_excluded_from_vendor_nudge c2args c2env c2result (by decide)

/-- Counterexample to C3 as stated: a checkout failure is re-raised, not
recorded — with the checkout of "alpha" failing, the whole run aborts with
that error and neither "alpha" nor "beta" reaches classification. -/
theorem c3_checkout_failure_aborts :
    okB (c3badenv.checkout "alpha") = false ∧
    "alpha" ∈ run_depends c3args c3badenv ∧
    run c3args c3badenv = Except.error "checkout failed" :=
  ⟨rfl, by decide, rfl⟩

/-- C3 as amended: failures of regeneration and scan are recorded as false
outcomes and every package still reaches classification exactly once — the
conclusion holds for arbitrary `services` and `cargo_audit` oracles — but
only provided every devel-project resolution and every checkout succeeds,
since those two re-raise and abort the run. -/
theorem c3_failures_recorded_checkout_fatal (args : Args) (env : Env)
    (hdev : ∀ p ∈ run_depends args env, okB (env.develproject p) = true)
    (hco : ∀ p ∈ run_depends args env, okB (env.checkout p) = true) :
    ∃ r, run args env = Except.ok r ∧
      r.scan_results.map (fun x => x.1) = run_depends args env := by
  obtain ⟨devel, hdd⟩ := resolve_devel_ok env _ hdev
  obtain ⟨st, hst⟩ := main_loop_ok env (fun p => lookupA devel p "") _ hco
    { fs := env.fs0, lockfiles := [], auditable_depends := []
    , unpack_depends := [], need_vendor_services := ∅ }
  refine ⟨finish args env (fun p => lookupA devel p "") (run_depends args env) st, ?_, ?_⟩
  · unfold run
    dsimp only
    rw [hdd]
    dsimp only
    rw [hst]
  · simp only [finish]
    exact scan_loop_names env args _ _ _ _

/-- Witness for the amended C3: a concrete run in which every service run
fails and the scan of "beta" raises still completes, classifying both
packages exactly once. -/
theorem c3_failures_recorded_checkout_fatal_witness :
    ∃ r, run c3args c3wenv = Except.ok r ∧
      r.scan_results.map (fun x => x.1) = run_depends c3args c3wenv :=
  c3_failures_recorded_checkout_fatal c3args c3wenv (by decide) (by decide)

/-- Counterexample to C4 as stated: two runs differing only in the scan of
"alpha" — an error in one, a report matching the queried advisory in the
other — produce identical final remediation sets; the distinction does not
survive into the final report. -/
theorem c4_final_report_collapses :
    (do_unpack_scan (c4errEnv.cargo_audit "alpha" none) c4args.rustsec_id).2 =
      "🚨 -- cargo_audit was unable to be run - boom" ∧
    (do_unpack_scan (c4affEnv.cargo_audit "alpha" none) c4args.rustsec_id).2 =
      "🚨 -- affected by RUSTSEC-2023-0001" ∧
    (run c4args c4errEnv).map
        (fun r => (r.fast_update, r.slow_update, r.need_vendor_services, r.maybe_vuln)) =
      (run c4args c4affEnv).map
        (fun r => (r.fast_update, r.slow_update, r.need_vendor_services, r.maybe_vuln)) := by
  refine ⟨by decide, by decide, by decide⟩

/-- C4 as amended: the three terminal scan outcomes are distinguished in the
per-package log lines — a scan error's line differs from any successful
scan's line, whatever the error text and report — but a scan error and an
advisory match collapse in the final remediation sets, as the two concrete
runs show: their per-package scan records differ while their final sets
coincide. -/
theorem c4_outcomes_in_log_not_in_final_report :
    (∀ (e rid : String) (reports : List Report),
      (do_unpack_scan (Except.error e) (some rid)).2 ≠
        (do_unpack_scan (Except.ok reports) (some rid)).2) ∧
    (run c4args c4errEnv).map (fun r => r.scan_results) ≠
      (run c4args c4affEnv).map (fun r => r.scan_results) ∧
    (run c4args c4errEnv).map
        (fun r => (r.fast_update, r.slow_update, r.need_vendor_services, r.maybe_vuln)) =
      (run c4args c4affEnv).map
        (fun r => (r.fast_update, r.slow_update, r.need_vendor_services, r.maybe_vuln)) :=
  ⟨scan_error_msg_ne, by decide, by decide⟩

/-- Counterexample to C5 as stated: on the spec's own input the filter does
not return the one-element list `["foo"]`. -/
theorem c5_not_single_foo :
    filter_whatdepends ["bar"] "rust\nfoo\nbar:test\nfoo\n" ≠ ["foo"] := by decide

/-- C5 as amended: the filtered list is `["foo", "foo"]` — header line
dropped, colon entry dropped, excluded names dropped, and the duplicate kept
since nothing de-duplicates. -/
theorem c5_filter_keeps_duplicate :
    filter_whatdepends ["bar"] "rust\nfoo\nbar:test\nfoo\n" = ["foo", "foo"] := by decide

/-- C6: in targeted mode the outcome is affected (the scan returns `false`)
exactly when the queried id is the id of some advisory record anywhere in
the report; in particular a report carrying only RUSTSEC-2023-0001 is
not affected for the query RUSTSEC-2023-0002 and affected for the query
RUSTSEC-2023-0001. -/
theorem c6_targeted_iff_id_present :
    (∀ (reports : List Report) (rid : String),
      ((do_unpack_scan (Except.ok reports) (some rid)).1 = false ↔
        ∃ report ∈ reports, ∃ adv ∈ report.vulnerabilities.list, adv.advisory.id = rid)) ∧
    (do_unpack_scan (Except.ok [report0001]) (some "RUSTSEC-2023-0002")).1 = true ∧
    (do_unpack_scan (Except.ok [report0001]) (some "RUSTSEC-2023-0001")).1 = false :=
  ⟨targeted_result, by decide, by decide⟩

/-- C7: in general mode the outcome is clean (the scan returns `true`)
exactly when the report sequence is empty; a non-empty sequence whose only
entry has an empty advisory list is still reported vulnerable. -/
theorem c7_general_clean_iff_empty :
    (∀ reports : List Report,
      ((do_unpack_scan (Except.ok reports) none).1 = true ↔ reports = [])) ∧
    (do_unpack_scan (Except.ok []) none).1 = true ∧
    (do_unpack_scan (Except.ok [emptyReport]) none).1 = false :=
  ⟨general_result, by decide, by decide⟩

/-- C8: an exception from the scan invocation is caught inside
`do_unpack_scan` and becomes the negative outcome `false` in both modes (the
embedded function is total, so nothing propagates); a run whose every scan
raises still completes, classifying each package. -/
theorem c8_scan_exception_recorded :
    (∀ (e : String) (rid : Option String),
      (do_unpack_scan (Except.error e) rid).1 = false) ∧
    (run c8args c8env).map (fun r => r.scan_results.map (fun x => (x.1, x.2.1))) =
      Except.ok [("alpha", false), ("beta", false)] :=
  ⟨fun e rid => rfl, by decide⟩

/-- C9: with no `_service` descriptor, the inspector returns all flags false
with no lockfile path, and the descriptor state is unchanged (no write). -/
theorem c9_no_descriptor_all_false_no_mutation :
    does_have_cargo_audit none = ((false, false, false, false, none), none) := rfl

/-- C10: an explicit `--package` allow-list is the working set verbatim —
the exclusion-set and colon/header filtering runs only on the enumeration
path. "rust" and "meson:test" are in `EXCLUDE` (the latter also carries a
colon) and the enumeration path drops them, yet a run given them as the
allow-list scans exactly those two packages. -/
theorem c10_allowlist_verbatim :
    (∀ (su : Bool) (rid : Option String) (ps : List String) (env : Env),
      run_depends { should_setup := su, rustsec_id := rid, package := some ps } env = ps) ∧
    "rust" ∈ EXCLUDE ∧ "meson:test" ∈ EXCLUDE ∧
    list_whatdepends "rust\nrust\nmeson:test\n" = [] ∧
    (run c10args baseEnv).map (fun r => r.scan_results.map (fun x => x.1)) =
      Except.ok ["rust", "meson:test"] :=
  ⟨fun su rid ps env => rfl, by decide, by decide, by decide, by decide⟩
